import Mathlib

/-!
Shallow embedding of the xnumon process-monitoring core (src/procmon.c).

Pure functions model the C routines; the OS probes and the hash/signature
caches (external collaborators per the spec) are oracles passed in as
environment records.  Machine integers are modelled as Nat/Int; none of the
verified properties depend on overflow behaviour.
-/

namespace Procmon

/-- struct timespec: seconds and nanoseconds. -/
structure Timespec where
  sec : Int := 0
  nsec : Int := 0
deriving DecidableEq

/-- stat_attr_t: the stat fields procmon reads (dev, ino, mode, uid, gid,
size, mtime, ctime, btime). -/
structure StatAttr where
  dev : Nat := 0
  ino : Nat := 0
  mode : Nat := 0
  uid : Nat := 0
  gid : Nat := 0
  size : Int := 0
  mtime : Timespec := {}
  ctime : Timespec := {}
  btime : Timespec := {}
deriving DecidableEq

/-- Modelled from the spec: audit_attr_t (auevent.h is not under src/).
Per the spec's open() description the audit attribute record carries
dev/ino/mode/uid/gid/mtime/ctime/btime/size. -/
structure AuditAttr where
  dev : Nat := 0
  ino : Nat := 0
  mode : Nat := 0
  uid : Nat := 0
  gid : Nat := 0
  size : Int := 0
  mtime : Timespec := {}
  ctime : Timespec := {}
  btime : Timespec := {}
deriving DecidableEq

/-- hashes_t: the configured digest set (values abstract, as computed by the
external hashes module). -/
structure Hashes where
  md5 : Nat := 0
  sha1 : Nat := 0
  sha256 : Nat := 0
deriving DecidableEq

/-- codesign_t: signature record.  codesign_is_good and the ident/teamid
fields are modelled from the spec (codesign.c is not under src/). -/
structure Codesign where
  ident : String := ""
  teamid : Option String := none
  good : Bool := false
deriving DecidableEq

/-- EIFLAG_* bitset of image_exec_t. -/
structure Flags where
  stat : Bool := false
  attr : Bool := false
  hashes : Bool := false
  shebang : Bool := false
  done : Bool := false
  nopath : Bool := false
  pidlookup : Bool := false
  nolog : Bool := false
  nolog_kids : Bool := false
  enomem : Bool := false
deriving DecidableEq

/-- audit_proc_t subject identity (modelled from the spec glossary; the
audit types are not under src/).  Only pid is consulted by procmon. -/
structure Subject where
  pid : Int := 0
  auid : Nat := 0
  sid : Nat := 0
deriving DecidableEq

/-- The scalar fields of image_exec_t (everything except the recursive
script/prev links). -/
structure ImageData where
  path : String := ""
  pid : Int := 0
  fd_open : Bool := false
  stat : StatAttr := {}
  flags : Flags := {}
  hashes : Hashes := {}
  codesign : Option Codesign := none
  refs : Nat := 1
  pqttl : Nat := 0
  argv : Option (List String) := none
  envv : Option (List String) := none
  cwd : Option String := none
  subject : Option Subject := none
  fork_tv : Timespec := {}
  tv : Timespec := {}
deriving DecidableEq

/-- image_exec_t: scalar data plus the owned script link and the shared
ancestor (prev) link. -/
inductive Image where
  | mk (data : ImageData) (script : Option Image) (prev : Option Image)

/-- Scalar field access. -/
def Image.data : Image → ImageData
  | .mk d _ _ => d

/-- The interpreted-script child link. -/
def Image.script : Image → Option Image
  | .mk _ sc _ => sc

/-- The ancestor link. -/
def Image.prev : Image → Option Image
  | .mk _ _ pv => pv

/-- image_exec_new: fresh image owning the given path, refs=1, fd closed,
zeroed stat/hashes/flags.  (The allocation-failure branch is not modelled;
the correlator model assumes allocations succeed.) -/
def image_exec_new (path : String) : ImageData :=
  { path := path }

/-- Configuration snapshot fields consulted by procmon. -/
structure Config where
  kextlevel : Nat := 0
  codesign : Bool := false
  /-- config->ancestors; none stands for SIZE_MAX (pruning disabled). -/
  ancestors : Option Nat := none
  suppress_by_ident : List String := []
  suppress_by_path : List String := []
  suppress_by_ancestor_ident : List String := []
  suppress_by_ancestor_path : List String := []

/-- Modelled from the spec: KEXTLEVEL_HASH (procmon.h is not under src/;
kext levels order none < open < hash < csig). -/
def KEXTLEVEL_HASH : Nat := 2

/-- Modelled from the spec: KEXTLEVEL_CSIG. -/
def KEXTLEVEL_CSIG : Nat := 3

/-- Result of cachecsig_get: hit, cold miss, or miss with ENOMEM. -/
inductive CsigRes where
  | hit (c : Codesign)
  | miss
  | missEnomem

/-- Result of codesign_new: success, failure, failure with ENOMEM. -/
inductive CodesignRes where
  | ok (c : Codesign)
  | fail
  | failEnomem

/-- Oracles for the acquisition pipeline: the hash cache, the digest
streamer, the fd re-stat, the signature cache, the signature checker and
the path re-stat.  File-descriptor keyed probes are keyed by the path the
fd was opened on. -/
structure AcqEnv where
  cachehash_get : Nat → Nat → Timespec → Timespec → Timespec → Option Hashes
  hashes_fd : String → Option (Int × Hashes)
  sys_fdattr2 : String → Option StatAttr
  cachecsig_get : Hashes → CsigRes
  codesign_new : String → CodesignRes
  sys_pathattr : String → Option StatAttr

/-- The 2nd-stat comparison of the hash bracket: size, mtime, ctime, btime
(dev/ino skipped because the fd is still open).  True iff unchanged. -/
def statMatchFd (a b : StatAttr) : Bool :=
  a.size == b.size && a.mtime == b.mtime && a.ctime == b.ctime
    && a.btime == b.btime

/-- The 3rd-stat comparison of the signature bracket: size, dev, ino,
mtime, ctime, btime.  True iff unchanged. -/
def statMatchPath (a b : StatAttr) : Bool :=
  a.size == b.size && a.dev == b.dev && a.ino == b.ino
    && a.mtime == b.mtime && a.ctime == b.ctime && a.btime == b.btime

/-- Outcome of image_exec_acquire on the scalar data: the updated data, the
return value, and the cache publications performed (cachehash_put and
cachecsig_put), surfaced as events so theorems can talk about them. -/
structure AcqResult where
  data : ImageData
  ret : Int
  hashPut : Option Hashes
  csigPut : Option Codesign

/-- Mark EIFLAG_DONE. -/
def setDone (d : ImageData) : ImageData :=
  { d with flags := { d.flags with done := true } }

/-- close(image->fd); image->fd = -1. -/
def closeFd (d : ImageData) : ImageData :=
  { d with fd_open := false }

/-- The EIFLAG_HASHES block of image_exec_acquire: cache consult, digest
streaming, and the 2nd-stat TOCTOU bracket.  Returns the failed AcqResult
or the updated data plus the cachehash_put event. -/
def acquireHashes (env : AcqEnv) (d : ImageData) :
    Except AcqResult (ImageData × Option Hashes) :=
  if d.flags.hashes then .ok (d, none)
  else if ¬ d.flags.stat ∨ d.fd_open = false then
    .error ⟨setDone d, -1, none, none⟩
  else
    match env.cachehash_get d.stat.dev d.stat.ino d.stat.mtime d.stat.ctime
        d.stat.btime with
    | some h =>
        .ok ({ d with hashes := h,
                      flags := { d.flags with hashes := true } }, none)
    | none =>
        match env.hashes_fd d.path with
        | none => .error ⟨setDone (closeFd d), -1, none, none⟩
        | some (sz, h) =>
            if sz ≠ d.stat.size then
              .error ⟨setDone (closeFd { d with hashes := h }), -1,
                      none, none⟩
            else
              match env.sys_fdattr2 d.path with
              | none =>
                  .error ⟨setDone (closeFd { d with hashes := h }), -1,
                          none, none⟩
              | some st =>
                  if statMatchFd d.stat st = false then
                    .error ⟨setDone (closeFd
                        { d with hashes := h,
                                 flags := { d.flags with hashes := false } }),
                        -1, none, none⟩
                  else
                    .ok ({ d with hashes := h,
                                  flags := { d.flags with hashes := true } },
                         some h)

/-- The fresh-computation part of the code-signature phase: if no
signature yet and checking is configured, compute it (deferring the
signature-verification helper daemons during the kernel callback) and
apply the 3rd-stat TOCTOU bracket; otherwise mark DONE. -/
def acquireCsigNew (cfg : Config) (env : AcqEnv) (kern : Bool)
    (d1 : ImageData) (hput : Option Hashes) : AcqResult :=
  if d1.codesign.isNone ∧ cfg.codesign then
    if kern = true ∧ (d1.path = "/usr/libexec/xpcproxy" ∨
        d1.path = "/usr/sbin/ocspd") then
      ⟨d1, 0, hput, none⟩
    else
      match env.codesign_new d1.path with
      | .fail => ⟨setDone d1, -1, hput, none⟩
      | .failEnomem =>
          ⟨setDone { d1 with
              flags := { d1.flags with enomem := true } }, -1, hput, none⟩
      | .ok c =>
          let d2 := { d1 with codesign := some c }
          match env.sys_pathattr d2.path with
          | none => ⟨setDone d2, -1, hput, none⟩
          | some st =>
              if statMatchPath d2.stat st = false then
                ⟨setDone { d2 with codesign := none }, -1, hput, none⟩
              else
                ⟨setDone d2, 0, hput, some c⟩
  else ⟨setDone d1, 0, hput, none⟩

/-- The code-signature phase of image_exec_acquire: signature cache
consult (adopting a hit, failing on ENOMEM), then the fresh-computation
part.  Takes the data after the hash phase (fd already closed) and the
pending hashPut event. -/
def acquireCsig (cfg : Config) (env : AcqEnv) (kern : Bool)
    (d : ImageData) (hput : Option Hashes) : AcqResult :=
  if d.codesign.isNone ∧ d.flags.hashes then
    match env.cachecsig_get d.hashes with
    | .hit c => acquireCsigNew cfg env kern { d with codesign := some c } hput
    | .missEnomem =>
        ⟨setDone { d with
            flags := { d.flags with enomem := true } }, -1, hput, none⟩
    | .miss => acquireCsigNew cfg env kern d hput
  else acquireCsigNew cfg env kern d hput

/-- image_exec_acquire: the full pipeline on the scalar data.  kern
indicates whether we are still inside the kernel callback. -/
def image_exec_acquire (cfg : Config) (env : AcqEnv) (d : ImageData)
    (kern : Bool) : AcqResult :=
  if d.flags.done then ⟨d, 0, none, none⟩
  else if kern = true ∧ cfg.kextlevel < KEXTLEVEL_HASH then ⟨d, 0, none, none⟩
  else if kern = true ∧ d.stat.size > 8388608 then ⟨d, 0, none, none⟩
  else
    match acquireHashes env d with
    | .error r => r
    | .ok (d1, hput) =>
        let d2 := closeFd d1
        if kern = true ∧ cfg.kextlevel < KEXTLEVEL_CSIG then
          ⟨d2, 0, hput, none⟩
        else if d2.flags.shebang then
          ⟨setDone d2, 0, hput, none⟩
        else acquireCsig cfg env kern d2 hput

/-- Combined open(2) + sys_fdattr result for a path, plus whether the first
two bytes are the shebang magic.  none models failure of either the open or
the fd-stat (both take the same fallback in the source). -/
structure FileInfo where
  stat : StatAttr
  shebang : Bool

/-- Result of the kill(pid, 0) liveness probe in procmon_wait4. -/
inductive KillRes where
  | ok
  | esrch
  | err
deriving DecidableEq

/-- Oracles for the correlator: OS probes per spec section 6. -/
structure Env where
  openAndStat : String → Option FileInfo
  pidpath : Int → Option String
  pidcwd : Int → Option String
  pidbsdinfo : Int → Option (Timespec × Int)
  realpath : String → Option String → Option String
  kill : Int → KillRes
  nanotime : Timespec := {}

/-- The fallback label of image_exec_open: copy mode/uid/gid/dev/ino from
the audit attribute, mark EIFLAG_ATTR, return 0. -/
def openFallback (d : ImageData) (a : AuditAttr) : ImageData :=
  { d with stat := { d.stat with mode := a.mode, uid := a.uid, gid := a.gid,
                                 dev := a.dev, ino := a.ino },
           flags := { d.flags with attr := true } }

/-- Record the opened fd and the fd-stat result on the image. -/
def withFdStat (d : ImageData) (st : StatAttr) : ImageData :=
  { d with fd_open := true, stat := st }

/-- The tail of the success path of image_exec_open: shebang detection from
the first two bytes, then EIFLAG_STAT. -/
def openFinish (d : ImageData) (fi : FileInfo) : ImageData :=
  let d1 := if fi.shebang then { d with flags := { d.flags with shebang := true } }
            else d
  { d1 with flags := { d1.flags with stat := true } }

/-- image_exec_open: acquire stat for the image, with audit-attribute
fallback and identity cross-check.  Returns (rv, updated data). -/
def image_exec_open (env : Env) (d : ImageData) (attr : Option AuditAttr) :
    Int × ImageData :=
  if d.flags.stat ∨ d.flags.attr then (0, d)
  else if d.flags.nopath then
    match attr with
    | some a => (0, openFallback d a)
    | none => (-1, d)
  else
    match env.openAndStat d.path with
    | none =>
        match attr with
        | some a => (0, openFallback d a)
        | none => (-1, d)
    | some fi =>
        let d1 := withFdStat d fi.stat
        match attr with
        | some a =>
            if fi.stat.mode ≠ a.mode ∨ fi.stat.uid ≠ a.uid ∨
               fi.stat.gid ≠ a.gid ∨ fi.stat.dev ≠ a.dev ∨
               fi.stat.ino ≠ a.ino then
              (0, openFallback d1 a)
            else (0, openFinish d1 fi)
        | none => (0, openFinish d1 fi)

/-- strset_contains3 semantics, modelled from the spec (strset.c is not
under src/): ident or team-id is in the set. -/
def strsetContains3 (set : List String) (ident : String)
    (teamid : Option String) : Bool :=
  set.contains ident ||
    (match teamid with
     | some t => set.contains t
     | none => false)

/-- image_exec_match_suppressions: true iff the image has a good signature
whose ident or teamid is in by_ident, or its path or its script's path is
in by_path. -/
def image_exec_match_suppressions (ie : Image) (by_ident by_path : List String) :
    Bool :=
  (match ie.data.codesign with
   | some cs => cs.good && strsetContains3 by_ident cs.ident cs.teamid
   | none => false) ||
  by_path.contains ie.data.path ||
  (match ie.script with
   | some sc => by_path.contains sc.data.path
   | none => false)

/-- image_exec_prune_ancestors with ancestors bound k: at level ≥ k drop
the prev link (freeing the chain), otherwise descend only through images
with refcount exactly 1. -/
def image_exec_prune_ancestors (k : Nat) : Image → Nat → Image
  | .mk d sc none, _ => .mk d sc none
  | .mk d sc (some p), level =>
      if k ≤ level then .mk d sc none
      else if d.refs = 1 then
        .mk d sc (some (image_exec_prune_ancestors k p (level + 1)))
      else .mk d sc (some p)

/-- Number of ancestor (prev) links reachable from an image. -/
def ancestorLen : Image → Nat
  | .mk _ _ none => 0
  | .mk _ _ (some p) => ancestorLen p + 1

/-- All chain nodes at depth < k have refcount exactly 1 (vacuously true
where the chain is shorter). -/
def refsOneUpto : Image → Nat → Bool
  | _, 0 => true
  | .mk d _ none, _ + 1 => d.refs == 1
  | .mk d _ (some p), n + 1 => d.refs == 1 && refsOneUpto p n

/-- Acquisition and close of the script image inside image_exec_work. -/
def workScript (cfg : Config) (env : AcqEnv) : Option Image → Option Image
  | some (.mk sd ssc spv) =>
      some (Image.mk (closeFd (image_exec_acquire cfg env sd false).data)
            ssc spv)
  | none => none

/-- The image-transforming part of image_exec_work: run acquisition to
completion on the image and its script (closing fds), then prune ancestors
if configured. -/
def image_exec_work_image (cfg : Config) (env : AcqEnv) : Image → Image
  | .mk d sc pv =>
      let d1 := closeFd (image_exec_acquire cfg env d false).data
      let sc1 := workScript cfg env sc
      match cfg.ancestors with
      | some k => image_exec_prune_ancestors k (Image.mk d1 sc1 pv) 0
      | none => Image.mk d1 sc1 pv

/-- The emit/suppress decision at the end of image_exec_work: -1 for
ENOMEM, NOLOG or a suppression-set match, else 0. -/
def image_exec_work_ret (cfg : Config) (ei : Image) : Int :=
  if ei.data.flags.enomem then -1
  else if ei.data.flags.nolog then -1
  else if image_exec_match_suppressions ei cfg.suppress_by_ident
      cfg.suppress_by_path then -1
  else 0

/-- image_exec_work: run acquisition to completion on the image and its
script, prune ancestors if configured, then decide whether to emit
(0) or suppress (-1).  Returns (rv, final image). -/
def image_exec_work (cfg : Config) (env : AcqEnv) (ei : Image) : Int × Image :=
  let ei1 := image_exec_work_image cfg env ei
  (image_exec_work_ret cfg ei1, ei1)

/-- MAXPQTTL, modelled from the spec (constant in the missing procmon.h;
approximately 16).  No verified property depends on the exact value. -/
def MAXPQTTL : Nat := 16

/-- basename: the path component after the last slash. -/
def basename (s : String) : String :=
  String.mk (s.data.foldl (fun acc c => if c = '/' then [] else acc ++ [c]) [])

/-- sys_basenamecmp as a match predicate: true iff equal basenames. -/
def basenameMatch (p q : String) : Bool :=
  basename p == basename q

/-- proc_t: per-process state (proc.c is not under src/; fields per the
spec's data model, minus the fd table which no claim touches). -/
structure Proc where
  pid : Int := 0
  fork_tv : Timespec := {}
  cwd : Option String := none
  image_exec : Option Image := none

/-- Modelled from the spec: proctab_find (proc.c is not under src/). -/
def proctab_find (t : List Proc) (pid : Int) : Option Proc :=
  t.find? (fun p => p.pid == pid)

/-- Modelled from the spec: proctab_remove frees the entry's owned state
and drops it from the table. -/
def proctab_remove (t : List Proc) (pid : Int) : List Proc :=
  t.filter (fun p => p.pid != pid)

/-- Store (create or replace) a process entry. -/
def proctab_store (t : List Proc) (p : Proc) : List Proc :=
  p :: proctab_remove t p.pid

/-- Correlator state: process table, pre-exec queue (scalar image data;
PQ entries never carry script/prev links), statistics counters, and the
sequence of images submitted to the worker. -/
structure PMState where
  proctab : List Proc := []
  pqlist : List ImageData := []
  pqlookup : Nat := 0
  pqmiss : Nat := 0
  pqdrop : Nat := 0
  pqskip : Nat := 0
  liveacq : Nat := 0
  miss_forksubj : Nat := 0
  miss_execsubj : Nat := 0
  miss_execinterp : Nat := 0
  worklog : List Image := []

/-- Result of prepq_lookup: the matched image and interpreter (unlinked
from the queue), the remaining queue, and the pqskip/pqdrop increments. -/
structure LookupRes where
  image : Option ImageData := none
  interp : Option ImageData := none
  pq : List ImageData := []
  skips : Nat := 0
  drops : Nat := 0

/-- Second phase of the prepq traversal: the image slot already matched a
shebang entry; scan on for the interpreter keyed on
(pid, basename(argv[0])). -/
def prepqScanInterp (pid : Int) (arg0 : String) :
    List ImageData → Option ImageData × List ImageData × Nat × Nat
  | [] => (none, [], 0, 0)
  | ei :: rest =>
      if ei.pid == pid && basenameMatch ei.path arg0 then
        (some ei, rest, 0, 0)
      else
        let r := prepqScanInterp pid arg0 rest
        if ei.pqttl + 1 = MAXPQTTL then
          (r.1, r.2.1, r.2.2.1 + 1, r.2.2.2 + 1)
        else
          (r.1, { ei with pqttl := ei.pqttl + 1 } :: r.2.1,
           r.2.2.1 + 1, r.2.2.2)

/-- Whether a queue entry matches the image slot: (pid, dev, ino) when the
audit event supplies attr, else (pid, basename(path)). -/
def prepqImageMatch (pid : Int) (imagepath : String) (attr : Option AuditAttr)
    (ei : ImageData) : Bool :=
  ei.pid == pid &&
    match attr with
    | some a => ei.stat.dev == a.dev && ei.stat.ino == a.ino
    | none => basenameMatch ei.path imagepath

/-- argv[0] when argv is present with at least two entries (the C guard
argv && argv[0] && argv[1]), else none. -/
def argvTwo : Option (List String) → Option String
  | some (a0 :: _ :: _) => some a0
  | _ => none

/-- prepq_lookup: head-to-tail traversal matching the image slot and, for
shebang images with at least two argv entries, the interpreter slot; every
skipped node ages by one and is dropped when its TTL reaches MAXPQTTL. -/
def prepq_lookup (pid : Int) (imagepath : String) (attr : Option AuditAttr)
    (argv : Option (List String)) : List ImageData → LookupRes
  | [] => {}
  | ei :: rest =>
      if prepqImageMatch pid imagepath attr ei then
        if ei.flags.shebang then
          match argvTwo argv with
          | some a0 =>
              let r := prepqScanInterp pid a0 rest
              ⟨some ei, r.1, r.2.1, r.2.2.1, r.2.2.2⟩
          | none => ⟨some ei, none, rest, 0, 0⟩
        else ⟨some ei, none, rest, 0, 0⟩
      else
        let r := prepq_lookup pid imagepath attr argv rest
        if ei.pqttl + 1 = MAXPQTTL then
          ⟨r.image, r.interp, r.pq, r.skips + 1, r.drops + 1⟩
        else
          ⟨r.image, r.interp, { ei with pqttl := ei.pqttl + 1 } :: r.pq,
           r.skips + 1, r.drops⟩

/-- image_exec_from_pid: fresh image for a live pid via runtime lookup,
with the synthetic path and EIFLAG_NOPATH when the path lookup fails. -/
def image_exec_from_pid (env : Env) (pid : Int) : ImageData :=
  match env.pidpath pid with
  | some p =>
      { image_exec_new p with
          tv := env.nanotime, pid := pid,
          flags := { pidlookup := true } }
  | none =>
      { image_exec_new ("<" ++ toString pid ++ ">") with
          tv := env.nanotime, pid := pid,
          flags := { pidlookup := true, nopath := true } }

/-- Mark EIFLAG_NOLOG on an image's scalar data. -/
def setNolog : Image → Image
  | .mk d sc pv => .mk { d with flags := { d.flags with nolog := true } } sc pv

/-- procmon_proc_from_pid: reconstruct a process (and recursively its
ancestors, bounded by fuel) from runtime lookups.  Returns the recovered
process and the updated state; none when the process is gone. -/
def procmon_proc_from_pid (env : Env) (fuel : Nat) (pid : Int)
    (log_event : Bool) (s : PMState) : Option Proc × PMState :=
  let proc0 :=
    match proctab_find s.proctab pid with
    | some p => p
    | none => { pid := pid }
  let s0 := { s with proctab := proctab_store s.proctab proc0 }
  match env.pidbsdinfo pid with
  | none => (none, { s0 with proctab := proctab_remove s0.proctab pid })
  | some (fk, ppid) =>
      match env.pidcwd pid with
      | none => (none, { s0 with proctab := proctab_remove s0.proctab pid })
      | some cwd =>
          let d := (image_exec_open env (image_exec_from_pid env pid) none).2
          let res :
              Option Image × PMState :=
            if ppid ≥ 0 ∧ ppid ≠ pid then
              match proctab_find s0.proctab ppid with
              | some pproc => (pproc.image_exec, s0)
              | none =>
                  match fuel with
                  | 0 => (none, s0)
                  | fuel' + 1 =>
                      match procmon_proc_from_pid env fuel' ppid log_event s0 with
                      | (some pproc, s1) => (pproc.image_exec, s1)
                      | (none, s1) => (none, s1)
            else (none, s0)
          let img := Image.mk d none res.1
          let img := if ¬ log_event ∨ pid = 0 then setNolog img else img
          let proc1 : Proc :=
            { pid := pid, fork_tv := fk, cwd := some cwd,
              image_exec := some img }
          (some proc1,
           { res.2 with proctab := proctab_store res.2.proctab proc1,
                        worklog := res.2.worklog ++ [img] })

/-- Resolve the subject process: table lookup, falling back to recovery.
Returns the process, the state, and whether recovery ran (liveacq). -/
def resolveSubject (env : Env) (fuel : Nat) (pid : Int) (s : PMState) :
    Option Proc × PMState × Bool :=
  match proctab_find s.proctab pid with
  | some p => (some p, s, false)
  | none =>
      match procmon_proc_from_pid env fuel pid true s with
      | (some p, s1) => (some p, s1, true)
      | (none, s1) => (none, s1, false)

/-- procmon_fork: resolve the parent, retire any stale child entry, create
the child inheriting cwd and the parent's current image. -/
def procmon_fork (env : Env) (fuel : Nat) (tv : Timespec) (subj : Subject)
    (childpid : Int) (s : PMState) : PMState :=
  match resolveSubject env fuel subj.pid s with
  | (none, s1, _) => { s1 with miss_forksubj := s1.miss_forksubj + 1 }
  | (some parent, s1, recovered) =>
      let s2 := if recovered then { s1 with liveacq := s1.liveacq + 1 } else s1
      let child : Proc :=
        { pid := childpid, fork_tv := tv, cwd := parent.cwd,
          image_exec := parent.image_exec }
      { s2 with proctab := proctab_store (proctab_remove s2.proctab childpid)
                  child }

/-- The suppression-propagation step at the end of the splice: if the
previous image had NOLOG_KIDS mark the new image NOLOG and NOLOG_KIDS,
else mark it NOLOG_KIDS when it matches the ancestor-suppression sets.
The source dereferences prev unconditionally; prev is invariantly non-null
there, and the none case is the identity. -/
def execSuppressFlags (cfg : Config) (cur : Image) (prevOpt : Option Image) :
    Image :=
  match prevOpt with
  | some prev =>
      if prev.data.flags.nolog_kids then
        match cur with
        | .mk d sc pv =>
            .mk { d with flags :=
                { d.flags with nolog := true, nolog_kids := true } } sc pv
      else if image_exec_match_suppressions cur cfg.suppress_by_ancestor_ident
          cfg.suppress_by_ancestor_path then
        match cur with
        | .mk d sc pv =>
            .mk { d with flags := { d.flags with nolog_kids := true } } sc pv
      else cur
  | none => cur

/-- The image installed by the splice step: newCur with
subject/argv/envv/cwd/pid/timestamps filled, the prior current image
linked as prev, and suppression propagation applied. -/
def execSpliceCur (cfg : Config) (tv : Timespec) (subj : Subject)
    (argv envv : Option (List String)) (proc : Proc) (newCur : Image) :
    Image :=
  let curD := { newCur.data with
      tv := tv, fork_tv := proc.fork_tv, pid := proc.pid,
      subject := some subj, argv := argv, envv := envv, cwd := proc.cwd }
  execSuppressFlags cfg (Image.mk curD newCur.script proc.image_exec)
    proc.image_exec

/-- The splice step of procmon_exec: install the filled image as the
process's current image and submit it to the worker. -/
def execSplice (cfg : Config) (tv : Timespec) (subj : Subject)
    (argv envv : Option (List String)) (proc : Proc) (newCur : Image)
    (s : PMState) : PMState :=
  let cur := execSpliceCur cfg tv subj argv envv proc newCur
  { s with proctab := proctab_store s.proctab
             { proc with image_exec := some cur },
           worklog := s.worklog ++ [cur] }

/-- The body of procmon_exec after the subject process has been resolved:
PQ lookup, image and interpreter fallbacks, splice, suppression
propagation, worker submission. -/
def procmon_exec_found (cfg : Config) (env : Env) (tv : Timespec)
    (subj : Subject) (imagepath : String) (attr : Option AuditAttr)
    (argv envv : Option (List String)) (proc : Proc) (s2 : PMState) :
    PMState :=
  let lr := prepq_lookup proc.pid imagepath attr argv s2.pqlist
  let s3 := { s2 with pqlist := lr.pq,
                      pqlookup := s2.pqlookup + 1,
                      pqskip := s2.pqskip + lr.skips,
                      pqdrop := s2.pqdrop + lr.drops }
  let imgStep : ImageData × PMState :=
    match lr.image with
    | some d => (d, s3)
    | none => (image_exec_new imagepath,
               { s3 with pqmiss := s3.pqmiss + 1 })
  let image := (image_exec_open env imgStep.1 attr).2
  let s4 := imgStep.2
  if image.flags.shebang then
    match lr.interp with
    | some i =>
        execSplice cfg tv subj argv envv proc
          (Image.mk (image_exec_open env i none).2
            (some (Image.mk image none none)) none) s4
    | none =>
        let s5 := { s4 with pqmiss := s4.pqmiss + 1 }
        match argv with
        | none => { s5 with miss_execinterp := s5.miss_execinterp + 1 }
        | some args =>
            let a0 := args.headD ""
            if a0.startsWith "/" ∨ proc.cwd.isSome then
              match env.realpath a0 proc.cwd with
              | none => { s5 with miss_execinterp := s5.miss_execinterp + 1 }
              | some p =>
                  execSplice cfg tv subj argv envv proc
                    (Image.mk (image_exec_open env (image_exec_new p) none).2
                      (some (Image.mk image none none)) none) s5
            else { s5 with miss_execinterp := s5.miss_execinterp + 1 }
  else
    execSplice cfg tv subj argv envv proc (Image.mk image none none) s4

/-- procmon_exec: subject resolution, then the found-process body. -/
def procmon_exec (cfg : Config) (env : Env) (fuel : Nat) (tv : Timespec)
    (subj : Subject) (imagepath : String) (attr : Option AuditAttr)
    (argv envv : Option (List String)) (s : PMState) : PMState :=
  match resolveSubject env fuel subj.pid s with
  | (none, s1, _) => { s1 with miss_execsubj := s1.miss_execsubj + 1 }
  | (some proc, s1, recovered) =>
      let s2 := if recovered then { s1 with liveacq := s1.liveacq + 1 } else s1
      procmon_exec_found cfg env tv subj imagepath attr argv envv proc s2

/-- Mark EIFLAG_NOLOG_KIDS on an image's scalar data. -/
def setNologKids : Image → Image
  | .mk d sc pv =>
      .mk { d with flags := { d.flags with nolog_kids := true } } sc pv

/-- procmon_spawn: fork followed by exec targeting childpid. -/
def procmon_spawn (cfg : Config) (env : Env) (fuel : Nat) (tv : Timespec)
    (subj : Subject) (childpid : Int) (imagepath : String)
    (attr : Option AuditAttr) (argv envv : Option (List String))
    (s : PMState) : PMState :=
  let s1 := procmon_fork env fuel tv subj childpid s
  procmon_exec cfg env fuel tv { subj with pid := childpid } imagepath attr
    argv envv s1

/-- procmon_exit: remove the process from the table (idempotent). -/
def procmon_exit (_tv : Timespec) (pid : Int) (s : PMState) : PMState :=
  { s with proctab := proctab_remove s.proctab pid }

/-- procmon_wait4: pid -1 and 0 are ignored; otherwise a signal-0 probe,
treating ESRCH as exit. -/
def procmon_wait4 (env : Env) (tv : Timespec) (pid : Int) (s : PMState) :
    PMState :=
  if pid = -1 ∨ pid = 0 then s
  else
    match env.kill pid with
    | .esrch => procmon_exit tv pid s
    | _ => s

/-! ## Concrete fixtures for witnesses and counterexamples -/

/-- A correlator environment in which every OS probe fails and every pid is
gone. -/
def env0 : Env :=
  { openAndStat := fun _ => none, pidpath := fun _ => none,
    pidcwd := fun _ => none, pidbsdinfo := fun _ => none,
    realpath := fun _ _ => none, kill := fun _ => .esrch }

/-- A correlator environment whose liveness probe always succeeds. -/
def envAlive : Env :=
  { env0 with kill := fun _ => .ok }

/-- An acquisition environment with cold caches and failing probes. -/
def acqEnv0 : AcqEnv :=
  { cachehash_get := fun _ _ _ _ _ => none, hashes_fd := fun _ => none,
    sys_fdattr2 := fun _ => none, cachecsig_get := fun _ => .miss,
    codesign_new := fun _ => .fail, sys_pathattr := fun _ => none }

/-! ## Claims -/

/-- C8: handling a spawn event produces the same state as handling a fork
event followed by an exec event whose subject pid is the child pid. -/
theorem C8_spawn_is_fork_then_exec (cfg : Config) (env : Env) (fuel : Nat)
    (tv : Timespec) (subj : Subject) (childpid : Int) (imagepath : String)
    (attr : Option AuditAttr) (argv envv : Option (List String))
    (s : PMState) :
    procmon_spawn cfg env fuel tv subj childpid imagepath attr argv envv s =
      procmon_exec cfg env fuel tv { subj with pid := childpid } imagepath
        attr argv envv (procmon_fork env fuel tv subj childpid s) := rfl

/-- C10: a wait4 event for pid -1 or 0 is a silent no-op whose result does
not even consult the liveness probe; for any other pid the process-table
entry is removed exactly when the signal-0 probe reports ESRCH, and the
state is untouched otherwise. -/
theorem C10_wait4_noop_and_esrch (env env2 : Env) (tv : Timespec) (pid : Int)
    (s : PMState) :
    ((pid = -1 ∨ pid = 0) →
       procmon_wait4 env tv pid s = s ∧
       procmon_wait4 env tv pid s = procmon_wait4 env2 tv pid s) ∧
    (¬ (pid = -1 ∨ pid = 0) → env.kill pid ≠ KillRes.esrch →
       procmon_wait4 env tv pid s = s) ∧
    (¬ (pid = -1 ∨ pid = 0) → env.kill pid = KillRes.esrch →
       procmon_wait4 env tv pid s = procmon_exit tv pid s) := by
  refine ⟨fun h => ?_, fun h hk => ?_, fun h hk => ?_⟩
  · simp [procmon_wait4, h]
  · simp only [procmon_wait4, if_neg h]
  · simp only [procmon_wait4, if_neg h, hk]

/-- Witness for C10 at concrete inputs: pid -1 is a no-op independent of
the probe, a live pid 5 is untouched, a vanished pid 5 is removed. -/
theorem C10_witness :
    (procmon_wait4 env0 {} (-1) {} = ({} : PMState) ∧
     procmon_wait4 env0 {} (-1) {} = procmon_wait4 envAlive {} (-1) {}) ∧
    procmon_wait4 envAlive {} 5 { proctab := [{ pid := 5 }] } =
      { proctab := [{ pid := 5 }] } ∧
    procmon_wait4 env0 {} 5 { proctab := [{ pid := 5 }] } =
      procmon_exit {} 5 { proctab := [{ pid := 5 }] } :=
  ⟨(C10_wait4_noop_and_esrch env0 envAlive {} (-1) {}).1 (Or.inl rfl),
   (C10_wait4_noop_and_esrch envAlive env0 {} 5
      { proctab := [{ pid := 5 }] }).2.1 (by decide) (by decide),
   (C10_wait4_noop_and_esrch env0 envAlive {} 5
      { proctab := [{ pid := 5 }] }).2.2 (by decide) rfl⟩

/-- Every node left in the queue by the interpreter scan is either an
untouched input node or an input node aged by exactly one whose new TTL
did not reach MAXPQTTL. -/
theorem prepqScanInterp_mem (pid : Int) (a0 : String) :
    ∀ pq d, d ∈ (prepqScanInterp pid a0 pq).2.1 →
      d ∈ pq ∨ ∃ e ∈ pq, e.pqttl + 1 ≠ MAXPQTTL ∧
        d = { e with pqttl := e.pqttl + 1 } := by
  intro pq
  induction pq with
  | nil => intro d hd; simp [prepqScanInterp] at hd
  | cons ei rest ih =>
      intro d hd
      rw [prepqScanInterp] at hd
      split at hd
      · exact Or.inl (List.mem_cons_of_mem ei hd)
      · split at hd
        · rcases ih d hd with h | ⟨e, he, hne, heq⟩
          · exact Or.inl (List.mem_cons_of_mem ei h)
          · exact Or.inr ⟨e, List.mem_cons_of_mem ei he, hne, heq⟩
        · rcases List.mem_cons.mp hd with h | h
          · exact Or.inr ⟨ei, List.mem_cons_self ei rest, by assumption, h⟩
          · rcases ih d h with h2 | ⟨e, he, hne, heq⟩
            · exact Or.inl (List.mem_cons_of_mem ei h2)
            · exact Or.inr ⟨e, List.mem_cons_of_mem ei he, hne, heq⟩

/-- Unpacking the argv guard: argvTwo yields argv[0] exactly when argv has
at least two entries. -/
theorem argvTwo_some {argv : Option (List String)} {a0 : String}
    (h : argvTwo argv = some a0) :
    ∃ a1 rest, argv = some (a0 :: a1 :: rest) := by
  match argv with
  | none => simp [argvTwo] at h
  | some [] => simp [argvTwo] at h
  | some [_] => simp [argvTwo] at h
  | some (x :: y :: ys) =>
      simp only [argvTwo, Option.some.injEq] at h
      exact ⟨y, ys, by rw [h]⟩

/-- Every node left in the queue by a PQ lookup is either an untouched
input node or an input node aged by exactly one below MAXPQTTL. -/
theorem prepq_lookup_mem (pid : Int) (imagepath : String)
    (attr : Option AuditAttr) (argv : Option (List String)) :
    ∀ pq d, d ∈ (prepq_lookup pid imagepath attr argv pq).pq →
      d ∈ pq ∨ ∃ e ∈ pq, e.pqttl + 1 ≠ MAXPQTTL ∧
        d = { e with pqttl := e.pqttl + 1 } := by
  intro pq
  induction pq with
  | nil => intro d hd; simp [prepq_lookup, LookupRes.pq] at hd
  | cons ei rest ih =>
      intro d hd
      simp only [prepq_lookup] at hd
      split at hd
      · split at hd
        · split at hd
          · simp only at hd
            rcases prepqScanInterp_mem pid _ rest d hd with
              h | ⟨e, he, hne, heq⟩
            · exact Or.inl (List.mem_cons_of_mem ei h)
            · exact Or.inr ⟨e, List.mem_cons_of_mem ei he, hne, heq⟩
          · simp only at hd
            exact Or.inl (List.mem_cons_of_mem ei hd)
        · simp only at hd
          exact Or.inl (List.mem_cons_of_mem ei hd)
      · split at hd
        · simp only at hd
          rcases ih d hd with h | ⟨e, he, hne, heq⟩
          · exact Or.inl (List.mem_cons_of_mem ei h)
          · exact Or.inr ⟨e, List.mem_cons_of_mem ei he, hne, heq⟩
        · simp only at hd
          rcases List.mem_cons.mp hd with h | h
          · exact Or.inr ⟨ei, List.mem_cons_self ei rest, by assumption, h⟩
          · rcases ih d h with h2 | ⟨e, he, hne, heq⟩
            · exact Or.inl (List.mem_cons_of_mem ei h2)
            · exact Or.inr ⟨e, List.mem_cons_of_mem ei he, hne, heq⟩

/-- C4: a PQ lookup ages every scanned unmatched node by one and evicts
the nodes thereby reaching MAXPQTTL, so if every queue node had TTL below
MAXPQTTL before the lookup (the invariant maintained by append, which
inserts TTL 0), every node left after the lookup still has TTL below
MAXPQTTL. -/
theorem C4_lookup_ttl_bound (pid : Int) (imagepath : String)
    (attr : Option AuditAttr) (argv : Option (List String))
    (pq : List ImageData) (hinv : ∀ d ∈ pq, d.pqttl < MAXPQTTL) :
    (∀ d ∈ (prepq_lookup pid imagepath attr argv pq).pq,
       d.pqttl < MAXPQTTL) ∧
    (∀ d ∈ (prepq_lookup pid imagepath attr argv pq).pq,
       d ∈ pq ∨ ∃ e ∈ pq, d = { e with pqttl := e.pqttl + 1 }) := by
  constructor
  · intro d hd
    rcases prepq_lookup_mem pid imagepath attr argv pq d hd with
      h | ⟨e, he, hne, heq⟩
    · exact hinv d h
    · have hlt := hinv e he
      subst heq
      simp only []
      omega
  · intro d hd
    rcases prepq_lookup_mem pid imagepath attr argv pq d hd with
      h | ⟨e, he, _, heq⟩
    · exact Or.inl h
    · exact Or.inr ⟨e, he, heq⟩

/-- Witness for C4: a concrete three-entry queue (one entry about to
expire and dropped, one aged, one matched); the aged survivor is in the
post-lookup queue and its TTL is below MAXPQTTL. -/
theorem C4_witness :
    ({ path := "/y", pid := 4, pqttl := 3 } : ImageData) ∈
      (prepq_lookup 7 "/bin/ls" none none
        [{ path := "/x", pid := 3, pqttl := 15 },
         { path := "/y", pid := 4, pqttl := 2 },
         { path := "/bin/ls", pid := 7 }]).pq ∧
    ({ path := "/y", pid := 4, pqttl := 3 } : ImageData).pqttl < MAXPQTTL :=
  ⟨by decide,
   (C4_lookup_ttl_bound 7 "/bin/ls" none none
      [{ path := "/x", pid := 3, pqttl := 15 },
       { path := "/y", pid := 4, pqttl := 2 },
       { path := "/bin/ls", pid := 7 }] (by decide)).1
     { path := "/y", pid := 4, pqttl := 3 } (by decide)⟩

/-- C9: a PQ lookup never returns an interpreter without an image; the
interpreter scan only starts after the image slot matched a SHEBANG entry
with at least two argv entries present. -/
theorem C9_interp_implies_image (pid : Int) (imagepath : String)
    (attr : Option AuditAttr) (argv : Option (List String)) :
    ∀ pq, ((prepq_lookup pid imagepath attr argv pq).interp).isSome = true →
      ∃ img, (prepq_lookup pid imagepath attr argv pq).image = some img ∧
        img.flags.shebang = true ∧
        ∃ a0 a1 rest, argv = some (a0 :: a1 :: rest) := by
  intro pq
  induction pq with
  | nil => intro h; simp [prepq_lookup, LookupRes.interp] at h
  | cons ei rest ih =>
      intro h
      simp only [prepq_lookup] at h ⊢
      split at h
      · split at h
        · rename_i hsheb
          split at h
          · rename_i a0 hargv
            rcases argvTwo_some hargv with ⟨a1, rs, hav⟩
            refine ⟨ei, ?_, hsheb, a0, a1, rs, hav⟩
            rw [if_pos (show prepqImageMatch pid imagepath attr ei = true by
                  assumption), if_pos hsheb]
          · simp at h
        · simp at h
      · rename_i hnm
        rw [if_neg hnm]
        by_cases hc : ei.pqttl + 1 = MAXPQTTL
        · rw [if_pos hc] at h ⊢
          exact ih h
        · rw [if_neg hc] at h ⊢
          exact ih h


/-- Witness for C9: a queue holding a shebang script entry and the awk
interpreter entry for pid 200; the lookup returns the interpreter only
together with the script image. -/
theorem C9_witness :
    ∃ img, (prepq_lookup 200 "/tmp/x.sh"
        (some { dev := 1, ino := 42 })
        (some ["/usr/bin/awk", "/tmp/x.sh"])
        [{ path := "/tmp/x.sh", pid := 200,
           stat := { dev := 1, ino := 42 },
           flags := { shebang := true } },
         { path := "/usr/bin/awk", pid := 200 }]).image = some img ∧
      img.flags.shebang = true ∧
      ∃ a0 a1 rest,
        (some ["/usr/bin/awk", "/tmp/x.sh"] : Option (List String)) =
          some (a0 :: a1 :: rest) :=
  C9_interp_implies_image 200 "/tmp/x.sh" (some { dev := 1, ino := 42 })
    (some ["/usr/bin/awk", "/tmp/x.sh"])
    [{ path := "/tmp/x.sh", pid := 200, stat := { dev := 1, ino := 42 },
       flags := { shebang := true } },
     { path := "/usr/bin/awk", pid := 200 }] (by decide)

/-- C3: the worker's work function suppresses (-1) exactly when the
processed image carries the ENOMEM flag, or the NOLOG flag, or matches the
suppression sets, and emits (0) in every other case. -/
theorem C3_work_suppress_iff (cfg : Config) (env : AcqEnv) (ei : Image) :
    ((image_exec_work cfg env ei).1 = -1 ↔
       ((image_exec_work cfg env ei).2.data.flags.enomem
        || (image_exec_work cfg env ei).2.data.flags.nolog
        || image_exec_match_suppressions (image_exec_work cfg env ei).2
             cfg.suppress_by_ident cfg.suppress_by_path) = true) ∧
    ((image_exec_work cfg env ei).1 = 0 ↔
       ((image_exec_work cfg env ei).2.data.flags.enomem
        || (image_exec_work cfg env ei).2.data.flags.nolog
        || image_exec_match_suppressions (image_exec_work cfg env ei).2
             cfg.suppress_by_ident cfg.suppress_by_path) = false) := by
  have hsnd : (image_exec_work cfg env ei).2 = image_exec_work_image cfg env ei :=
    rfl
  have hfst : (image_exec_work cfg env ei).1 =
      image_exec_work_ret cfg (image_exec_work_image cfg env ei) := rfl
  rw [hsnd, hfst]
  generalize image_exec_work_image cfg env ei = e
  unfold image_exec_work_ret
  by_cases h1 : e.data.flags.enomem = true
  · simp [h1]
  · by_cases h2 : e.data.flags.nolog = true
    · simp [h1, h2]
    · by_cases h3 : image_exec_match_suppressions e cfg.suppress_by_ident
          cfg.suppress_by_path = true
      · simp [h1, h2, h3]
      · simp only [Bool.not_eq_true] at h1 h2 h3
        simp [h1, h2, h3]

/-- The fresh-computation part of the signature phase never performs a
hash-cache write of its own: it propagates the pending one. -/
theorem acquireCsigNew_hashPut (cfg : Config) (env : AcqEnv) (kern : Bool)
    (d : ImageData) (hput : Option Hashes) :
    (acquireCsigNew cfg env kern d hput).hashPut = hput := by
  simp only [acquireCsigNew]
  split
  · split
    · rfl
    · split
      · rfl
      · rfl
      · split
        · rfl
        · split <;> rfl
  · rfl

/-- The signature phase never performs a hash-cache write of its own. -/
theorem acquireCsig_hashPut (cfg : Config) (env : AcqEnv) (kern : Bool)
    (d : ImageData) (hput : Option Hashes) :
    (acquireCsig cfg env kern d hput).hashPut = hput := by
  simp only [acquireCsig]
  split
  · split
    · exact acquireCsigNew_hashPut ..
    · rfl
    · exact acquireCsigNew_hashPut ..
  · exact acquireCsigNew_hashPut ..

/-- C1: hash acquisition on a cache miss is TOCTOU-bracketed: if the bytes
streamed differ from the first stat's size, or the fd re-stat differs from
the first stat on size/mtime/ctime/btime, acquisition returns -1 with the
image DONE and without the HASHES flag, and nothing is written to the hash
cache; a hash-cache write implies the re-stat matched. -/
theorem C1_hash_toctou (cfg : Config) (env : AcqEnv) (d : ImageData)
    (kern : Bool)
    (hdone : d.flags.done = false)
    (hh : d.flags.hashes = false)
    (hs : d.flags.stat = true)
    (hfd : d.fd_open = true)
    (hk1 : kern = true → KEXTLEVEL_HASH ≤ cfg.kextlevel)
    (hk2 : kern = true → d.stat.size ≤ 8388608)
    (hmiss : env.cachehash_get d.stat.dev d.stat.ino d.stat.mtime d.stat.ctime
        d.stat.btime = none) :
    (∀ sz h, env.hashes_fd d.path = some (sz, h) → sz ≠ d.stat.size →
       (image_exec_acquire cfg env d kern).ret = -1 ∧
       (image_exec_acquire cfg env d kern).data.flags.done = true ∧
       (image_exec_acquire cfg env d kern).data.flags.hashes = false ∧
       (image_exec_acquire cfg env d kern).hashPut = none) ∧
    (∀ sz h st, env.hashes_fd d.path = some (sz, h) →
       env.sys_fdattr2 d.path = some st → statMatchFd d.stat st = false →
       (image_exec_acquire cfg env d kern).ret = -1 ∧
       (image_exec_acquire cfg env d kern).data.flags.done = true ∧
       (image_exec_acquire cfg env d kern).data.flags.hashes = false ∧
       (image_exec_acquire cfg env d kern).hashPut = none) ∧
    ((image_exec_acquire cfg env d kern).hashPut.isSome = true →
       ∃ st, env.sys_fdattr2 d.path = some st ∧
         statMatchFd d.stat st = true) := by
  have g1 : ¬ (kern = true ∧ cfg.kextlevel < KEXTLEVEL_HASH) := by
    rintro ⟨hk, hlt⟩
    exact absurd hlt (not_lt.mpr (hk1 hk))
  have g2 : ¬ (kern = true ∧ d.stat.size > 8388608) := by
    rintro ⟨hk, hgt⟩
    exact absurd hgt (not_lt.mpr (hk2 hk))
  have partA : ∀ sz h, env.hashes_fd d.path = some (sz, h) →
      sz ≠ d.stat.size →
      (image_exec_acquire cfg env d kern).ret = -1 ∧
      (image_exec_acquire cfg env d kern).data.flags.done = true ∧
      (image_exec_acquire cfg env d kern).data.flags.hashes = false ∧
      (image_exec_acquire cfg env d kern).hashPut = none := by
    intro sz h hfz hne
    simp [image_exec_acquire, acquireHashes, setDone, closeFd,
      hdone, hh, hs, hfd, hmiss, hfz, hne, g1, g2]
  refine ⟨partA, ?_, ?_⟩
  · intro sz h st hfz hst hm
    by_cases hsz : sz = d.stat.size
    · simp [image_exec_acquire, acquireHashes, setDone, closeFd,
        hdone, hh, hs, hfd, hmiss, hfz, hsz, hst, hm, g1, g2]
    · exact partA sz h hfz hsz
  · intro hput
    rcases hf : env.hashes_fd d.path with _ | ⟨sz, h⟩
    · simp [image_exec_acquire, acquireHashes, setDone, closeFd,
        hdone, hh, hs, hfd, hmiss, hf, g1, g2] at hput
    · by_cases hsz : sz = d.stat.size
      · rcases hst : env.sys_fdattr2 d.path with _ | st
        · simp [image_exec_acquire, acquireHashes, setDone, closeFd,
            hdone, hh, hs, hfd, hmiss, hf, hsz, hst, g1, g2] at hput
        · by_cases hm : statMatchFd d.stat st = true
          · exact ⟨st, rfl, hm⟩
          · have hm2 : statMatchFd d.stat st = false :=
              Bool.eq_false_iff.mpr hm
            simp [image_exec_acquire, acquireHashes, setDone, closeFd,
              hdone, hh, hs, hfd, hmiss, hf, hsz, hst, hm2, g1, g2] at hput
      · simp [image_exec_acquire, acquireHashes, setDone, closeFd,
          hdone, hh, hs, hfd, hmiss, hf, hsz, g1, g2] at hput

/-- An image mid hash acquisition: stat acquired, fd open, 100 bytes. -/
def dC1 : ImageData :=
  { path := "/bin/ls", fd_open := true, flags := { stat := true },
    stat := { size := 100 } }

/-- A digest value for the fixtures. -/
def hashesC1 : Hashes := { sha256 := 99 }

/-- A re-stat result whose mtime moved. -/
def stC1 : StatAttr := { size := 100, mtime := { sec := 5 } }

/-- Acquisition environment: hash-cache miss, 100 bytes streamed, fd
re-stat sees a changed mtime. -/
def envC1 : AcqEnv :=
  { cachehash_get := fun _ _ _ _ _ => none,
    hashes_fd := fun _ => some (100, hashesC1),
    sys_fdattr2 := fun _ => some stC1,
    cachecsig_get := fun _ => .miss,
    codesign_new := fun _ => .fail,
    sys_pathattr := fun _ => none }

/-- Witness for C1: with the concrete moving-target environment the
acquisition fails, marks DONE without HASHES, and writes nothing to the
hash cache. -/
theorem C1_witness :
    (image_exec_acquire {} envC1 dC1 false).ret = -1 ∧
    (image_exec_acquire {} envC1 dC1 false).data.flags.done = true ∧
    (image_exec_acquire {} envC1 dC1 false).data.flags.hashes = false ∧
    (image_exec_acquire {} envC1 dC1 false).hashPut = none :=
  (C1_hash_toctou {} envC1 dC1 false rfl rfl rfl rfl (by decide) (by decide)
      rfl).2.1 100 hashesC1 stC1 rfl rfl (by decide)

/-- C2: a freshly computed code signature is TOCTOU-bracketed by a
path-based re-stat against the original stat on
(size, dev, ino, mtime, ctime, btime): on mismatch the signature is freed,
the image is DONE and acquisition returns -1 with no signature-cache
write; a signature-cache write implies the re-stat matched, and on a match
the computed signature is kept and published. -/
theorem C2_csig_toctou (cfg : Config) (env : AcqEnv) (d : ImageData)
    (kern : Bool) (c : Codesign)
    (hdone : d.flags.done = false)
    (hh : d.flags.hashes = true)
    (hsheb : d.flags.shebang = false)
    (hcs : d.codesign = none)
    (hcfg : cfg.codesign = true)
    (hk2 : kern = true → d.stat.size ≤ 8388608)
    (hk3 : kern = true → KEXTLEVEL_CSIG ≤ cfg.kextlevel)
    (hk4 : kern = true → ¬ (d.path = "/usr/libexec/xpcproxy" ∨
        d.path = "/usr/sbin/ocspd"))
    (hmiss : env.cachecsig_get d.hashes = CsigRes.miss)
    (hnew : env.codesign_new d.path = CodesignRes.ok c) :
    (∀ st, env.sys_pathattr d.path = some st →
       statMatchPath d.stat st = false →
       (image_exec_acquire cfg env d kern).ret = -1 ∧
       (image_exec_acquire cfg env d kern).data.codesign = none ∧
       (image_exec_acquire cfg env d kern).data.flags.done = true ∧
       (image_exec_acquire cfg env d kern).csigPut = none) ∧
    ((image_exec_acquire cfg env d kern).csigPut.isSome = true →
       ∃ st, env.sys_pathattr d.path = some st ∧
         statMatchPath d.stat st = true) ∧
    (∀ st, env.sys_pathattr d.path = some st →
       statMatchPath d.stat st = true →
       (image_exec_acquire cfg env d kern).csigPut = some c ∧
       (image_exec_acquire cfg env d kern).data.codesign = some c ∧
       (image_exec_acquire cfg env d kern).ret = 0 ∧
       (image_exec_acquire cfg env d kern).data.flags.done = true) := by
  have g1 : ¬ (kern = true ∧ cfg.kextlevel < KEXTLEVEL_HASH) := by
    rintro ⟨hk, hlt⟩
    have := hk3 hk
    simp [KEXTLEVEL_HASH, KEXTLEVEL_CSIG] at this hlt
    omega
  have g2 : ¬ (kern = true ∧ d.stat.size > 8388608) := by
    rintro ⟨hk, hgt⟩
    exact absurd hgt (not_lt.mpr (hk2 hk))
  have g3 : ¬ (kern = true ∧ cfg.kextlevel < KEXTLEVEL_CSIG) := by
    rintro ⟨hk, hlt⟩
    exact absurd hlt (not_lt.mpr (hk3 hk))
  have g4 : ¬ (kern = true ∧ (d.path = "/usr/libexec/xpcproxy" ∨
      d.path = "/usr/sbin/ocspd")) := by
    rintro ⟨hk, hp⟩
    exact hk4 hk hp
  refine ⟨?_, ?_, ?_⟩
  · intro st hst hm
    simp [image_exec_acquire, acquireHashes, acquireCsig, acquireCsigNew,
      setDone, closeFd, hdone, hh, hsheb, hcs, hcfg, hmiss, hnew, hst, hm,
      g1, g2, g3, g4]
  · intro hput
    rcases hst : env.sys_pathattr d.path with _ | st
    · simp [image_exec_acquire, acquireHashes, acquireCsig, acquireCsigNew,
        setDone, closeFd, hdone, hh, hsheb, hcs, hcfg, hmiss, hnew, hst,
        g1, g2, g3, g4] at hput
    · by_cases hm : statMatchPath d.stat st = true
      · exact ⟨st, rfl, hm⟩
      · have hm2 : statMatchPath d.stat st = false :=
          Bool.eq_false_iff.mpr hm
        simp [image_exec_acquire, acquireHashes, acquireCsig, acquireCsigNew,
          setDone, closeFd, hdone, hh, hsheb, hcs, hcfg, hmiss, hnew, hst,
          hm2, g1, g2, g3, g4] at hput
  · intro st hst hm
    simp [image_exec_acquire, acquireHashes, acquireCsig, acquireCsigNew,
      setDone, closeFd, hdone, hh, hsheb, hcs, hcfg, hmiss, hnew, hst, hm,
      g1, g2, g3, g4]

/-- An image entering the signature phase: hashes already acquired. -/
def dC2 : ImageData :=
  { path := "/bin/ls", flags := { stat := true, hashes := true },
    stat := { size := 100 }, hashes := hashesC1 }

/-- A good signature for the fixtures. -/
def csigC2 : Codesign := { ident := "com.example.ls", good := true }

/-- Acquisition environment: signature-cache miss, fresh signature
computed, path re-stat sees a different inode. -/
def envC2 : AcqEnv :=
  { cachehash_get := fun _ _ _ _ _ => none,
    hashes_fd := fun _ => none,
    sys_fdattr2 := fun _ => none,
    cachecsig_get := fun _ => .miss,
    codesign_new := fun _ => .ok csigC2,
    sys_pathattr := fun _ => some { size := 100, ino := 7 } }

/-- Witness for C2: with the concrete replaced-file environment the
freshly computed signature is invalidated, the image is DONE, acquisition
fails, and nothing is written to the signature cache. -/
theorem C2_witness :
    (image_exec_acquire { codesign := true } envC2 dC2 false).ret = -1 ∧
    (image_exec_acquire { codesign := true } envC2 dC2 false).data.codesign
      = none ∧
    (image_exec_acquire { codesign := true } envC2 dC2 false).data.flags.done
      = true ∧
    (image_exec_acquire { codesign := true } envC2 dC2 false).csigPut
      = none :=
  (C2_csig_toctou { codesign := true } envC2 dC2 false csigC2 rfl rfl rfl rfl
      rfl (by decide) (by decide) (by decide) rfl rfl).1
    { size := 100, ino := 7 } rfl (by decide)

/-- C6 counterexample input: an audit attribute carrying a nonzero size
and btime. -/
def aC6 : AuditAttr :=
  { dev := 1, ino := 2, mode := 493, uid := 10, gid := 20, size := 7,
    btime := { sec := 3 } }

/-- C6 counterexample: in the open-failure fallback the image is marked
ATTR and open succeeds, but the size (likewise mtime/ctime/btime) is NOT
copied from the audit attribute as the claim states: it stays zero. -/
theorem C6_counterexample :
    (image_exec_open env0 (image_exec_new "/bin/true") (some aC6)).1 = 0 ∧
    (image_exec_open env0 (image_exec_new "/bin/true")
        (some aC6)).2.flags.attr = true ∧
    (image_exec_open env0 (image_exec_new "/bin/true")
        (some aC6)).2.stat.size ≠ aC6.size := by
  refine ⟨rfl, rfl, ?_⟩
  intro h
  simp [image_exec_open, image_exec_new, openFallback, env0, aC6] at h

/-- C6 amended: both fallbacks of image_exec_open copy only the identity
fields dev/ino/mode/uid/gid from the audit attribute, mark ATTR, and
return success; size and the timestamps are left as they were (zero after
open failure, the fd-stat's values after an identity mismatch). -/
theorem C6_amended_open_fallback (env : Env) (d : ImageData) (a : AuditAttr)
    (h1 : d.flags.stat = false) (h2 : d.flags.attr = false)
    (h3 : d.flags.nopath = false) :
    (env.openAndStat d.path = none →
       image_exec_open env d (some a) = (0, openFallback d a) ∧
       (openFallback d a).flags.attr = true ∧
       (openFallback d a).stat.dev = a.dev ∧
       (openFallback d a).stat.ino = a.ino ∧
       (openFallback d a).stat.mode = a.mode ∧
       (openFallback d a).stat.uid = a.uid ∧
       (openFallback d a).stat.gid = a.gid ∧
       (openFallback d a).stat.size = d.stat.size ∧
       (openFallback d a).stat.mtime = d.stat.mtime ∧
       (openFallback d a).stat.ctime = d.stat.ctime ∧
       (openFallback d a).stat.btime = d.stat.btime) ∧
    (∀ fi, env.openAndStat d.path = some fi →
       (fi.stat.mode ≠ a.mode ∨ fi.stat.uid ≠ a.uid ∨ fi.stat.gid ≠ a.gid ∨
        fi.stat.dev ≠ a.dev ∨ fi.stat.ino ≠ a.ino) →
       image_exec_open env d (some a) =
         (0, openFallback (withFdStat d fi.stat) a) ∧
       (openFallback (withFdStat d fi.stat) a).flags.attr = true ∧
       (openFallback (withFdStat d fi.stat) a).stat.dev = a.dev ∧
       (openFallback (withFdStat d fi.stat) a).stat.ino = a.ino ∧
       (openFallback (withFdStat d fi.stat) a).stat.mode = a.mode ∧
       (openFallback (withFdStat d fi.stat) a).stat.uid = a.uid ∧
       (openFallback (withFdStat d fi.stat) a).stat.gid = a.gid ∧
       (openFallback (withFdStat d fi.stat) a).stat.size = fi.stat.size ∧
       (openFallback (withFdStat d fi.stat) a).stat.mtime = fi.stat.mtime ∧
       (openFallback (withFdStat d fi.stat) a).stat.ctime = fi.stat.ctime ∧
       (openFallback (withFdStat d fi.stat) a).stat.btime = fi.stat.btime) := by
  constructor
  · intro hoa
    refine ⟨?_, rfl, rfl, rfl, rfl, rfl, rfl, rfl, rfl, rfl, rfl⟩
    simp [image_exec_open, h1, h2, h3, hoa]
  · intro fi hoa hm
    refine ⟨?_, rfl, rfl, rfl, rfl, rfl, rfl, rfl, rfl, rfl, rfl⟩
    simp only [image_exec_open, h1, h2, h3, hoa, withFdStat]
    simp [hm]

/-- Witness for C6 (amended): concrete open failure with an audit
attribute; only dev/ino/mode/uid/gid are adopted, size stays zero. -/
theorem C6_witness :
    image_exec_open env0 (image_exec_new "/bin/true") (some aC6) =
      (0, openFallback (image_exec_new "/bin/true") aC6) ∧
    (openFallback (image_exec_new "/bin/true") aC6).flags.attr = true ∧
    (openFallback (image_exec_new "/bin/true") aC6).stat.dev = aC6.dev ∧
    (openFallback (image_exec_new "/bin/true") aC6).stat.ino = aC6.ino ∧
    (openFallback (image_exec_new "/bin/true") aC6).stat.mode = aC6.mode ∧
    (openFallback (image_exec_new "/bin/true") aC6).stat.uid = aC6.uid ∧
    (openFallback (image_exec_new "/bin/true") aC6).stat.gid = aC6.gid ∧
    (openFallback (image_exec_new "/bin/true") aC6).stat.size =
      (image_exec_new "/bin/true").stat.size ∧
    (openFallback (image_exec_new "/bin/true") aC6).stat.mtime =
      (image_exec_new "/bin/true").stat.mtime ∧
    (openFallback (image_exec_new "/bin/true") aC6).stat.ctime =
      (image_exec_new "/bin/true").stat.ctime ∧
    (openFallback (image_exec_new "/bin/true") aC6).stat.btime =
      (image_exec_new "/bin/true").stat.btime :=
  (C6_amended_open_fallback env0 (image_exec_new "/bin/true") aC6
      rfl rfl rfl).1 rfl

/-- The fresh-computation part of the signature phase never changes the
reference count. -/
theorem acquireCsigNew_refs (cfg : Config) (env : AcqEnv) (kern : Bool)
    (d : ImageData) (hput : Option Hashes) :
    (acquireCsigNew cfg env kern d hput).data.refs = d.refs := by
  simp only [acquireCsigNew, setDone]
  split
  · split
    · rfl
    · split
      · rfl
      · rfl
      · split
        · rfl
        · split <;> rfl
  · rfl

/-- The signature phase never changes the reference count. -/
theorem acquireCsig_refs (cfg : Config) (env : AcqEnv) (kern : Bool)
    (d : ImageData) (hput : Option Hashes) :
    (acquireCsig cfg env kern d hput).data.refs = d.refs := by
  simp only [acquireCsig]
  split
  · split
    · rw [acquireCsigNew_refs]
    · rfl
    · rw [acquireCsigNew_refs]
  · rw [acquireCsigNew_refs]

/-- The hash phase never changes the reference count (stated over both
outcomes). -/
theorem acquireHashes_refs (env : AcqEnv) (d : ImageData) :
    ∀ rr, acquireHashes env d = rr →
      (match rr with
       | .error r => r.data.refs
       | .ok (d1, _) => d1.refs) = d.refs := by
  intro rr h
  simp only [acquireHashes] at h
  repeat' split at h
  all_goals subst h
  all_goals simp [setDone, closeFd]

/-- image_exec_acquire never changes the reference count. -/
theorem image_exec_acquire_refs (cfg : Config) (env : AcqEnv)
    (d : ImageData) (kern : Bool) :
    (image_exec_acquire cfg env d kern).data.refs = d.refs := by
  simp only [image_exec_acquire]
  split
  · rfl
  · split
    · rfl
    · split
      · rfl
      · split
        · rename_i r heq
          exact acquireHashes_refs env d (.error r) heq
        · rename_i d1 hput heq
          have hd1 := acquireHashes_refs env d (.ok (d1, hput)) heq
          simp only at hd1
          split
          · simp [closeFd, hd1]
          · split
            · simp [setDone, closeFd, hd1]
            · rw [acquireCsig_refs]
              simp [closeFd, hd1]

/-- Ancestor-chain length after pruning with bound k starting at the given
level, provided every node at depth below the remaining budget has
refcount 1. -/
theorem prune_len (k : Nat) : ∀ (img : Image) (level : Nat),
    refsOneUpto img (k - level) = true →
    ancestorLen (image_exec_prune_ancestors k img level) ≤ k - level
  | .mk d sc none, level, _ => by
      simp [image_exec_prune_ancestors, ancestorLen]
  | .mk d sc (some p), level, h => by
      by_cases hk : k ≤ level
      · have hz : k - level = 0 := by omega
        rw [image_exec_prune_ancestors, if_pos hk]
        simp [ancestorLen]
      · have hm : k - level = (k - (level + 1)) + 1 := by omega
        rw [hm] at h
        simp only [refsOneUpto, Bool.and_eq_true, beq_iff_eq] at h
        rw [image_exec_prune_ancestors, if_neg hk, if_pos h.1]
        simp only [ancestorLen]
        have hrec := prune_len k p (level + 1) h.2
        omega

/-- refsOneUpto looks only at the refcounts along the prev chain: the
node's other data and its script link are irrelevant. -/
theorem refsOneUpto_data (d1 d2 : ImageData) (sc1 sc2 : Option Image)
    (pv : Option Image) (h : d1.refs = d2.refs) :
    ∀ k, refsOneUpto (.mk d1 sc1 pv) k = refsOneUpto (.mk d2 sc2 pv) k := by
  intro k
  cases k with
  | zero => cases pv <;> rfl
  | succ n =>
      cases pv with
      | none => simp [refsOneUpto, h]
      | some p => simp [refsOneUpto, h]

/-- C5 (amended): pruning descends only through exclusively owned chain
nodes, so after worker processing the ancestor chain is bounded by the
configured ancestors value provided every node above the cut point has
refcount exactly 1; the work pipeline preserves the chain and refcounts,
so the prune bound transfers to image_exec_work. -/
theorem C5_amended_prune_bound (cfg : Config) (env : AcqEnv) (ei : Image)
    (k : Nat) (hk : cfg.ancestors = some k)
    (hrefs : refsOneUpto ei k = true) :
    ancestorLen (image_exec_work cfg env ei).2 ≤ k := by
  cases ei with
  | mk d sc pv =>
      have hsnd : (image_exec_work cfg env (.mk d sc pv)).2 =
          image_exec_work_image cfg env (.mk d sc pv) := rfl
      rw [hsnd]
      simp only [image_exec_work_image, hk]
      have hr : (closeFd (image_exec_acquire cfg env d false).data).refs
          = d.refs := by
        simp [closeFd, image_exec_acquire_refs]
      have hup :
          refsOneUpto (Image.mk
            (closeFd (image_exec_acquire cfg env d false).data)
            (workScript cfg env sc) pv) k = true := by
        rw [refsOneUpto_data _ d _ sc pv hr k]
        exact hrefs
      have hlen := prune_len k (Image.mk
          (closeFd (image_exec_acquire cfg env d false).data)
          (workScript cfg env sc) pv) 0 (by simpa using hup)
      simpa using hlen

/-- C5 counterexample input: a worker image with refcount 2 (the usual
state: one reference held by the process table, one by the worker) and two
ancestors. -/
def eiC5 : Image :=
  .mk { refs := 2, flags := { done := true } } none
    (some (.mk { flags := { done := true } } none
      (some (.mk { flags := { done := true } } none none))))

/-- C5 counterexample: with ancestors configured to 1, after worker
processing the ancestor chain still has length 2, because the root's
refcount of 2 stops the pruning descent. -/
theorem C5_counterexample :
    ¬ (ancestorLen (image_exec_work { ancestors := some 1 } acqEnv0
        eiC5).2 ≤ 1) := by decide

/-- C5 witness input: the same shape but with the root exclusively
owned. -/
def eiC5w : Image :=
  .mk { flags := { done := true } } none
    (some (.mk { refs := 2, flags := { done := true } } none
      (some (.mk { flags := { done := true } } none none))))

/-- Witness for the amended C5: with the first k chain nodes exclusively
owned, pruning enforces the configured bound. -/
theorem C5_witness :
    ancestorLen (image_exec_work { ancestors := some 1 } acqEnv0
      eiC5w).2 ≤ 1 :=
  C5_amended_prune_bound { ancestors := some 1 } acqEnv0 eiC5w 1 rfl
    (by decide)

/-- A table lookup returns an entry whose pid is the key. -/
theorem proctab_find_eq_pid {t : List Proc} {pid : Int} {p : Proc}
    (h : proctab_find t pid = some p) : p.pid = pid := by
  have := List.find?_some h
  simpa using this

/-- find after store retrieves the stored entry. -/
theorem proctab_find_store_self (t : List Proc) (p : Proc) :
    proctab_find (proctab_store t p) p.pid = some p := by
  simp [proctab_find, proctab_store, List.find?]

/-- Propagation: when the previous image has NOLOG_KIDS, the suppression
step marks the new image NOLOG and NOLOG_KIDS. -/
theorem execSuppressFlags_kids (cfg : Config) (cur prev : Image)
    (h : prev.data.flags.nolog_kids = true) :
    (execSuppressFlags cfg cur (some prev)).data.flags.nolog = true ∧
    (execSuppressFlags cfg cur (some prev)).data.flags.nolog_kids = true := by
  cases prev with
  | mk pd psc ppv =>
      cases cur with
      | mk d sc pv =>
          simp only [Image.data] at h
          simp [execSuppressFlags, Image.data, h]

/-- C7: suppression propagation at the splice step.  (1) If the previous
current image has NOLOG_KIDS, the spliced image is marked NOLOG and
NOLOG_KIDS; (2) otherwise it is marked NOLOG_KIDS exactly when it matches
the ancestor-suppression sets; (3) hence along procmon_exec steps a
process whose current image has NOLOG_KIDS keeps that property: the new
current image either is the old one (dropped exec) or is marked both
NOLOG and NOLOG_KIDS, so suppression is monotone along exec descent. -/
theorem C7_nologkids_monotone :
    (∀ (cfg : Config) (cur prev : Image),
       prev.data.flags.nolog_kids = true →
       (execSuppressFlags cfg cur (some prev)).data.flags.nolog = true ∧
       (execSuppressFlags cfg cur (some prev)).data.flags.nolog_kids
         = true) ∧
    (∀ (cfg : Config) (cur prev : Image),
       prev.data.flags.nolog_kids = false →
       execSuppressFlags cfg cur (some prev) =
         (if image_exec_match_suppressions cur cfg.suppress_by_ancestor_ident
              cfg.suppress_by_ancestor_path = true
          then setNologKids cur else cur)) ∧
    (∀ (cfg : Config) (env : Env) (fuel : Nat) (tv : Timespec)
       (subj : Subject) (imagepath : String) (attr : Option AuditAttr)
       (argv envv : Option (List String)) (s : PMState) (proc : Proc)
       (prev : Image),
       proctab_find s.proctab subj.pid = some proc →
       proc.image_exec = some prev →
       prev.data.flags.nolog_kids = true →
       ∃ proc1 cur,
         proctab_find (procmon_exec cfg env fuel tv subj imagepath attr argv
             envv s).proctab subj.pid = some proc1 ∧
         proc1.image_exec = some cur ∧
         cur.data.flags.nolog_kids = true ∧
         (cur = prev ∨ cur.data.flags.nolog = true)) := by
  refine ⟨fun cfg cur prev h => execSuppressFlags_kids cfg cur prev h,
          fun cfg cur prev h => ?_, ?_⟩
  · cases cur with
    | mk d sc pv =>
        by_cases hm : image_exec_match_suppressions (.mk d sc pv)
            cfg.suppress_by_ancestor_ident cfg.suppress_by_ancestor_path
            = true
        · simp [execSuppressFlags, h, hm, setNologKids]
        · have hm2 := Bool.eq_false_iff.mpr hm
          simp [execSuppressFlags, h, hm2, setNologKids]
  · intro cfg env fuel tv subj imagepath attr argv envv s proc prev
      hfind himg hkids
    have hpid : proc.pid = subj.pid := proctab_find_eq_pid hfind
    have hexec : procmon_exec cfg env fuel tv subj imagepath attr argv envv s
        = procmon_exec_found cfg env tv subj imagepath attr argv envv proc
            s := by
      simp [procmon_exec, resolveSubject, hfind]
    rw [hexec]
    have hsplice : ∀ (newCur : Image) (sx : PMState),
        sx.proctab = s.proctab →
        ∃ proc1 cur,
          proctab_find (execSplice cfg tv subj argv envv proc newCur
              sx).proctab subj.pid = some proc1 ∧
          proc1.image_exec = some cur ∧
          cur.data.flags.nolog_kids = true ∧
          (cur = prev ∨ cur.data.flags.nolog = true) := by
      intro newCur sx hsx
      refine ⟨{ proc with
          image_exec := some (execSpliceCur cfg tv subj argv envv proc
            newCur) },
        execSpliceCur cfg tv subj argv envv proc newCur, ?_, rfl, ?_, ?_⟩
      · have hst := proctab_find_store_self sx.proctab
          { proc with image_exec := some (execSpliceCur cfg tv subj argv envv
              proc newCur) }
        simp only [execSplice]
        simpa [hpid] using hst
      · simp only [execSpliceCur, himg]
        exact (execSuppressFlags_kids cfg _ prev hkids).2
      · refine Or.inr ?_
        simp only [execSpliceCur, himg]
        exact (execSuppressFlags_kids cfg _ prev hkids).1
    simp only [procmon_exec_found]
    rcases hli : (prepq_lookup proc.pid imagepath attr argv s.pqlist).image
      with _ | d0
    all_goals
      simp only [hli]
      split
      · split
        · exact hsplice _ _ rfl
        · split
          · exact ⟨proc, prev, hfind, himg, hkids, Or.inl rfl⟩
          · split
            · split
              · exact ⟨proc, prev, hfind, himg, hkids, Or.inl rfl⟩
              · exact hsplice _ _ rfl
            · exact ⟨proc, prev, hfind, himg, hkids, Or.inl rfl⟩
      · exact hsplice _ _ rfl

/-- C7 witness fixture: a current image with NOLOG_KIDS set. -/
def prevC7 : Image := .mk { flags := { nolog_kids := true } } none none

/-- C7 witness fixture: a process running under prevC7. -/
def procC7 : Proc := { pid := 9, cwd := some "/", image_exec := some prevC7 }

/-- C7 witness fixture: a one-process state. -/
def sC7 : PMState := { proctab := [procC7] }

/-- Witness for C7: an exec under a NOLOG_KIDS image leaves the process
with a current image that still carries NOLOG_KIDS and, if replaced, also
NOLOG. -/
theorem C7_witness :
    ∃ proc1 cur,
      proctab_find (procmon_exec {} env0 0 {} { pid := 9 } "/bin/ls" none
          none none sC7).proctab ({ pid := 9 } : Subject).pid = some proc1 ∧
      proc1.image_exec = some cur ∧
      cur.data.flags.nolog_kids = true ∧
      (cur = prevC7 ∨ cur.data.flags.nolog = true) :=
  C7_nologkids_monotone.2.2 {} env0 0 {} { pid := 9 } "/bin/ls" none none
    none sC7 procC7 prevC7 rfl rfl rfl

end Procmon
